import Mathlib

/-!
Verification of `count.py` (token-counting script).

The script has one function, `count_tokens_in_file(filepath, model="gpt-4o-mini")`,
which resolves a tokenizer encoding for `model` via `tiktoken.encoding_for_model`,
reads the file as UTF-8 text, and returns the length of the encoded token-ID
sequence.  The `__main__` block loops over the argument paths, printing
`f"{fp} {count_tokens_in_file(fp)}"` for each.

The tokenizer library (`tiktoken`) is an external, opaque dependency: it is
modelled here abstractly by its contract, as a map from model identifiers to
encodings, where an encoding maps text to a token-ID sequence.  The filesystem
is modelled as a map from paths to file states.  Errors are modelled with an
`Except` monad; the uncaught Python exception corresponds to the `.error`
outcome of the run, which the interpreter turns into a non-zero exit status.
-/

/-- Errors arising in token counting, mirroring the failure modes of
`count_tokens_in_file`: file access failure (path missing, unreadable, or a
directory), text-decoding failure, and an unrecognized model identifier. -/
inductive CountError where
  | fileAccessError
  | decodingError
  | unknownModelError
deriving DecidableEq, Repr

/-- State of a path in the modelled filesystem: absent/unreadable (so `open`
raises), readable but with bytes that do not decode as UTF-8 text (so `read`
raises), or readable with the given decoded text content. -/
inductive FileState where
  | missing
  | undecodable
  | text (content : String)
deriving DecidableEq, Repr

/-- Filesystem model: each path has a `FileState`. -/
structure FS where
  read : String → FileState

/-- Modelled from the spec: the tokenizer encoding is an opaque external
capability `encode(text) -> sequence of token IDs`.  The spec pins two facts
about every encoding the resolver can return: encoding empty text yields the
empty sequence (so `count` of an empty file is 0), and encoding non-empty text
yields at least one token (so `count` of a non-empty file is at least 1). -/
structure Encoding where
  encode : String → List Nat
  encode_empty : encode "" = []
  encode_nonempty : ∀ s : String, s ≠ "" → encode s ≠ []

/-- Modelled from the spec: the encoding resolver (`tiktoken.encoding_for_model`)
maps a model identifier to its encoding profile, and fails (raises, i.e.
`none`) on a model identifier with no known encoding profile. -/
structure Resolver where
  resolve : String → Option Encoding

/-- Default model identifier, from the `model="gpt-4o-mini"` default parameter
of `count_tokens_in_file`. -/
def defaultModel : String := "gpt-4o-mini"

/-- Embedding of `count_tokens_in_file(filepath, model)`: resolve the encoding
for `model` (raising `unknownModelError` if unknown), then open and read the
file (raising `fileAccessError` if the path is missing or unreadable and
`decodingError` if its bytes are not valid text), then return the length of
the encoded token sequence.  The resolution happens before the file is
touched, exactly as in the source. -/
def count_tokens_in_file (R : Resolver) (fs : FS) (filepath : String)
    (model : String) : Except CountError Nat :=
  match R.resolve model with
  | none => .error .unknownModelError
  | some enc =>
    match fs.read filepath with
    | .missing => .error .fileAccessError
    | .undecodable => .error .decodingError
    | .text t => .ok (enc.encode t).length

/-- Embedding of the `__main__` loop: process the argument paths in order,
calling `count_tokens_in_file` with the default model on each.  Returns the
list of `(path, count)` pairs printed before the run ends, and `some e` if an
uncaught error `e` aborted the run (in which case no pair for the failing path
or any later path appears), else `none`. -/
def mainRun (R : Resolver) (fs : FS) : List String → List (String × Nat) × Option CountError
  | [] => ([], none)
  | fp :: rest =>
    match count_tokens_in_file R fs fp defaultModel with
    | .error e => ([], some e)
    | .ok n =>
      let r := mainRun R fs rest
      ((fp, n) :: r.1, r.2)

/-- Rendering of one printed line, from `print(f"{fp} {count_tokens_in_file(fp)}")`. -/
def renderLine (p : String × Nat) : String := p.1 ++ " " ++ toString p.2

/-- The lines the script prints on the given argument list. -/
def mainOutput (R : Resolver) (fs : FS) (args : List String) : List String :=
  ((mainRun R fs args).1).map renderLine

/-- Process exit status of the run: the script sets no exit code itself, so
the interpreter exits 0 on normal termination and 1 on an uncaught
exception. -/
def exitCode (r : List (String × Nat) × Option CountError) : Nat :=
  match r.2 with
  | none => 0
  | some _ => 1

/-- A concrete encoding used to witness the theorems: each character is one
token (its code point).  It satisfies the spec-modelled encoding contract. -/
def charEncoding : Encoding where
  encode s := s.data.map Char.toNat
  encode_empty := rfl
  encode_nonempty := by
    intro s hs h
    apply hs
    have hd : s.data = [] := List.map_eq_nil_iff.mp h
    cases s with
    | mk d => cases hd; rfl

/-- A concrete resolver knowing only the default model. -/
def demoResolver : Resolver where
  resolve m := if m = defaultModel then some charEncoding else none

/-- A resolver knowing no model at all. -/
def emptyResolver : Resolver where
  resolve _ := none

/-- A concrete filesystem: `a.md` holds `hi`, `b.md` is empty, everything
else is missing. -/
def demoFS : FS where
  read p :=
    if p = "a.md" then .text "hi"
    else if p = "b.md" then .text ""
    else .missing

/-- Helper: a run on the empty argument list prints nothing and ends cleanly. -/
theorem mainRun_nil_eq (R : Resolver) (fs : FS) : mainRun R fs [] = ([], none) := rfl

/-- Helper: when counting the head path succeeds, the run prints its pair and
continues with the remaining paths. -/
theorem mainRun_cons_ok (R : Resolver) (fs : FS) (fp : String) (rest : List String) (n : Nat)
    (h : count_tokens_in_file R fs fp defaultModel = .ok n) :
    mainRun R fs (fp :: rest) =
      ((fp, n) :: (mainRun R fs rest).1, (mainRun R fs rest).2) := by
  simp [mainRun, h]

/-- Helper: when counting the head path fails, the run aborts at once with
that error and prints nothing further. -/
theorem mainRun_cons_error (R : Resolver) (fs : FS) (fp : String) (rest : List String)
    (e : CountError)
    (h : count_tokens_in_file R fs fp defaultModel = .error e) :
    mainRun R fs (fp :: rest) = ([], some e) := by
  simp [mainRun, h]

/-- Helper: every printed pair records a successful default-model count of its
own path. -/
theorem mainRun_mem_ok (R : Resolver) (fs : FS) (args : List String) (q : String) (n : Nat)
    (h : (q, n) ∈ (mainRun R fs args).1) :
    count_tokens_in_file R fs q defaultModel = .ok n := by
  induction args with
  | nil => simp [mainRun] at h
  | cons fp rest ih =>
    cases hc : count_tokens_in_file R fs fp defaultModel with
    | error e =>
      rw [mainRun_cons_error R fs fp rest e hc] at h
      simp at h
    | ok m =>
      rw [mainRun_cons_ok R fs fp rest m hc] at h
      simp at h
      rcases h with ⟨hq, hn⟩ | h
      · subst hq
        subst hn
        exact hc
      · exact ih h

/-- Helper: a run on `pre ++ l` where every path of `pre` counts successfully
prints the pairs for `pre` in order and then behaves as the run on `l`. -/
theorem mainRun_append_ok (R : Resolver) (fs : FS) (pre l : List String) (cnt : String → Nat)
    (hpre : ∀ q ∈ pre, count_tokens_in_file R fs q defaultModel = .ok (cnt q)) :
    mainRun R fs (pre ++ l) =
      (pre.map (fun q => (q, cnt q)) ++ (mainRun R fs l).1, (mainRun R fs l).2) := by
  induction pre with
  | nil => simp
  | cons fp rest ih =>
    have hfp : count_tokens_in_file R fs fp defaultModel = .ok (cnt fp) := hpre fp (by simp)
    have hrest : ∀ q ∈ rest, count_tokens_in_file R fs q defaultModel = .ok (cnt q) :=
      fun q hq => hpre q (by simp [hq])
    rw [List.cons_append, mainRun_cons_ok R fs fp (rest ++ l) (cnt fp) hfp, ih hrest]
    simp

/-- Count table used by the witnesses for the demo filesystem. -/
def demoCnt : String → Nat := fun p => if p = "a.md" then 2 else 0

/-- Claim C1: for every file path referencing an existing, readable,
text-decodable file and every model identifier known to the encoding
resolver, `count_tokens_in_file` returns exactly the length of the token-ID
sequence that the resolved encoding assigns to the file's full, unmodified
text content; the result is a pure function of the file's content and the
model identifier (any filesystem agreeing on that path gives the same
result). -/
theorem count_exact_and_pure (R : Resolver) (fs fs2 : FS) (F M : String)
    (enc : Encoding) (t : String)
    (hM : R.resolve M = some enc) (hF : fs.read F = .text t)
    (hagree : fs2.read F = fs.read F) :
    count_tokens_in_file R fs F M = .ok ((enc.encode t).length) ∧
      count_tokens_in_file R fs2 F M = count_tokens_in_file R fs F M := by
  unfold count_tokens_in_file
  rw [hM, hagree, hF]
  exact ⟨rfl, rfl⟩

/-- Claim C1 witness at a concrete resolver, filesystem, path and model. -/
theorem count_exact_and_pure_witness :
    count_tokens_in_file demoResolver demoFS "a.md" defaultModel =
        .ok ((charEncoding.encode "hi").length) ∧
      count_tokens_in_file demoResolver demoFS "a.md" defaultModel =
        count_tokens_in_file demoResolver demoFS "a.md" defaultModel :=
  count_exact_and_pure demoResolver demoFS demoFS "a.md" defaultModel charEncoding "hi"
    rfl rfl rfl

/-- Claim C2: counting is deterministic — two invocations on the same path and
model with unchanged file content (two filesystems agreeing at that path)
return the identical result. -/
theorem count_deterministic (R : Resolver) (fs1 fs2 : FS) (F M : String)
    (h : fs1.read F = fs2.read F) :
    count_tokens_in_file R fs1 F M = count_tokens_in_file R fs2 F M := by
  unfold count_tokens_in_file
  rw [h]

/-- Claim C2 witness at a concrete resolver, filesystem, path and model. -/
theorem count_deterministic_witness :
    count_tokens_in_file demoResolver demoFS "a.md" defaultModel =
      count_tokens_in_file demoResolver demoFS "a.md" defaultModel :=
  count_deterministic demoResolver demoFS demoFS "a.md" defaultModel rfl

/-- Claim C3: when every supplied path counts successfully, the run prints
exactly one line per path, of the form `<path> <token-count>` (so each line
begins with its path), in the order the paths were supplied, and the run ends
without error; the two-distinct-valid-paths scenario is the length-two
instance. -/
theorem mainRun_all_ok_lines (R : Resolver) (fs : FS) (args : List String)
    (cnt : String → Nat)
    (hall : ∀ p ∈ args, count_tokens_in_file R fs p defaultModel = .ok (cnt p)) :
    mainOutput R fs args = args.map (fun p => p ++ " " ++ toString (cnt p)) ∧
      (mainRun R fs args).2 = none := by
  have h := mainRun_append_ok R fs args [] cnt hall
  rw [List.append_nil] at h
  rw [mainRun_nil_eq] at h
  simp at h
  constructor
  · rw [mainOutput, h]
    simp [renderLine]
  · rw [h]

/-- Claim C3 witness: two distinct valid paths give exactly their two lines in
order. -/
theorem mainRun_all_ok_lines_witness :
    mainOutput demoResolver demoFS ["a.md", "b.md"] =
        (["a.md", "b.md"]).map (fun p => p ++ " " ++ toString (demoCnt p)) ∧
      (mainRun demoResolver demoFS ["a.md", "b.md"]).2 = none :=
  mainRun_all_ok_lines demoResolver demoFS ["a.md", "b.md"] demoCnt (by
    intro p hp
    simp at hp
    rcases hp with hp | hp
    · subst hp
      rfl
    · subst hp
      rfl)

/-- Claim C4: on a path that does not reference an existing readable file
(with the model identifier known to the resolver, as it is for the entry
point's default model), counting raises `fileAccessError`, and no printed
count line for that path is ever produced by any run. -/
theorem count_missing_path (R : Resolver) (fs : FS) (P M : String) (enc : Encoding)
    (args : List String) (n : Nat)
    (hM : R.resolve M = some enc) (hP : fs.read P = .missing) :
    count_tokens_in_file R fs P M = .error .fileAccessError ∧
      (P, n) ∉ (mainRun R fs args).1 := by
  constructor
  · simp [count_tokens_in_file, hM, hP]
  · intro hmem
    have h := mainRun_mem_ok R fs args P n hmem
    cases hR : R.resolve defaultModel with
    | none => simp [count_tokens_in_file, hR] at h
    | some e2 => simp [count_tokens_in_file, hR, hP] at h

/-- Claim C4 witness: the missing path `c.md` errors and never appears in the
output of a run. -/
theorem count_missing_path_witness :
    count_tokens_in_file demoResolver demoFS "c.md" defaultModel =
        .error .fileAccessError ∧
      ("c.md", 0) ∉ (mainRun demoResolver demoFS ["a.md", "c.md"]).1 :=
  count_missing_path demoResolver demoFS "c.md" defaultModel charEncoding
    ["a.md", "c.md"] 0 rfl rfl

/-- Claim C5: on a model identifier unknown to the resolver, counting raises
`unknownModelError`, for any file path. -/
theorem count_unknown_model (R : Resolver) (fs : FS) (F M : String)
    (hM : R.resolve M = none) :
    count_tokens_in_file R fs F M = .error .unknownModelError := by
  unfold count_tokens_in_file
  rw [hM]

/-- Claim C5 witness at a resolver that knows no model. -/
theorem count_unknown_model_witness :
    count_tokens_in_file emptyResolver demoFS "a.md" "bogus-model" =
      .error .unknownModelError :=
  count_unknown_model emptyResolver demoFS "a.md" "bogus-model" rfl

/-- Claim C6: no error is caught, logged, or retried internally — when
counting a path fails, the very same error value is the run's outcome (the
underlying cause intact), no count line for the failed file is printed, and
the run aborts with a non-zero status. -/
theorem error_propagates_uncaught (R : Resolver) (fs : FS) (pre rest : List String)
    (fp : String) (e : CountError) (cnt : String → Nat) (n : Nat)
    (hpre : ∀ q ∈ pre, count_tokens_in_file R fs q defaultModel = .ok (cnt q))
    (hfp : count_tokens_in_file R fs fp defaultModel = .error e) :
    (mainRun R fs (pre ++ fp :: rest)).2 = some e ∧
      (fp, n) ∉ (mainRun R fs (pre ++ fp :: rest)).1 ∧
      exitCode (mainRun R fs (pre ++ fp :: rest)) ≠ 0 := by
  have h := mainRun_append_ok R fs pre (fp :: rest) cnt hpre
  rw [mainRun_cons_error R fs fp rest e hfp] at h
  simp at h
  refine ⟨?_, ?_, ?_⟩
  · rw [h]
  · rw [h]
    intro hmem
    simp at hmem
    rcases hmem with ⟨q, hq, hq1, hqn⟩
    have hok := hpre q hq
    rw [hq1, hfp] at hok
    exact Except.noConfusion hok
  · rw [exitCode, h]
    simp

/-- Claim C6 witness: failure on the missing `c.md` aborts the run with the
access error, prints no `c.md` line, and yields a non-zero status. -/
theorem error_propagates_uncaught_witness :
    (mainRun demoResolver demoFS (["a.md"] ++ "c.md" :: ["b.md"])).2 =
        some .fileAccessError ∧
      ("c.md", 5) ∉ (mainRun demoResolver demoFS (["a.md"] ++ "c.md" :: ["b.md"])).1 ∧
      exitCode (mainRun demoResolver demoFS (["a.md"] ++ "c.md" :: ["b.md"])) ≠ 0 :=
  error_propagates_uncaught demoResolver demoFS ["a.md"] ["b.md"] "c.md"
    .fileAccessError demoCnt 5
    (by
      intro q hq
      simp at hq
      subst hq
      rfl)
    rfl

/-- Claim C7: counting an empty file returns 0 for every model identifier the
resolver knows. -/
theorem count_empty_file (R : Resolver) (fs : FS) (F M : String) (enc : Encoding)
    (hM : R.resolve M = some enc) (hF : fs.read F = .text "") :
    count_tokens_in_file R fs F M = .ok 0 := by
  simp [count_tokens_in_file, hM, hF, enc.encode_empty]

/-- Claim C7 witness: the empty file `b.md` counts to 0. -/
theorem count_empty_file_witness :
    count_tokens_in_file demoResolver demoFS "b.md" defaultModel = .ok 0 :=
  count_empty_file demoResolver demoFS "b.md" defaultModel charEncoding rfl rfl

/-- Claim C8: on a readable file and a known model identifier the count is a
non-negative integer, and it is at least 1 when the file's text content is
non-empty. -/
theorem count_nonneg_and_pos (R : Resolver) (fs : FS) (F M t : String) (enc : Encoding)
    (hM : R.resolve M = some enc) (hF : fs.read F = .text t) :
    count_tokens_in_file R fs F M = .ok ((enc.encode t).length) ∧
      0 ≤ (enc.encode t).length ∧
      (t ≠ "" → 1 ≤ (enc.encode t).length) := by
  refine ⟨by simp [count_tokens_in_file, hM, hF], Nat.zero_le _, ?_⟩
  intro ht
  exact List.length_pos.mpr (enc.encode_nonempty t ht)

/-- Claim C8 witness: the non-empty file `a.md` has a positive count. -/
theorem count_nonneg_and_pos_witness :
    count_tokens_in_file demoResolver demoFS "a.md" defaultModel =
        .ok ((charEncoding.encode "hi").length) ∧
      0 ≤ (charEncoding.encode "hi").length ∧
      ("hi" ≠ "" → 1 ≤ (charEncoding.encode "hi").length) :=
  count_nonneg_and_pos demoResolver demoFS "a.md" defaultModel "hi" charEncoding rfl rfl

/-- Claim C9: invoked with zero file-path arguments, the entry point prints
nothing and terminates normally with exit status 0. -/
theorem mainRun_no_args (R : Resolver) (fs : FS) :
    mainOutput R fs [] = [] ∧ (mainRun R fs []).2 = none ∧
      exitCode (mainRun R fs []) = 0 :=
  ⟨rfl, rfl, rfl⟩

/-- Claim C10: output is incremental in argument order — if every path before
`fp` counts successfully and `fp` fails, the run prints exactly the pairs for
the earlier paths, in order, and nothing for `fp` or the later paths, ending
with that error; moreover every printed pair comes from a successful count of
its path under the default model identifier, the one the entry point always
passes. -/
theorem mainRun_incremental_default (R : Resolver) (fs : FS)
    (pre rest args : List String) (fp q : String) (e : CountError)
    (cnt : String → Nat) (n : Nat)
    (hpre : ∀ p ∈ pre, count_tokens_in_file R fs p defaultModel = .ok (cnt p))
    (hfp : count_tokens_in_file R fs fp defaultModel = .error e)
    (hmem : (q, n) ∈ (mainRun R fs args).1) :
    mainRun R fs (pre ++ fp :: rest) = (pre.map (fun p => (p, cnt p)), some e) ∧
      count_tokens_in_file R fs q defaultModel = .ok n := by
  constructor
  · have h := mainRun_append_ok R fs pre (fp :: rest) cnt hpre
    rw [mainRun_cons_error R fs fp rest e hfp] at h
    simpa using h
  · exact mainRun_mem_ok R fs args q n hmem

/-- Claim C10 witness: with `a.md` succeeding and `c.md` missing, the run on
`[a.md, c.md, b.md]` prints exactly the `a.md` pair and aborts; the printed
pair of the run on `[b.md]` is its default-model count. -/
theorem mainRun_incremental_default_witness :
    mainRun demoResolver demoFS (["a.md"] ++ "c.md" :: ["b.md"]) =
        ((["a.md"]).map (fun p => (p, demoCnt p)), some .fileAccessError) ∧
      count_tokens_in_file demoResolver demoFS "b.md" defaultModel = .ok 0 :=
  mainRun_incremental_default demoResolver demoFS ["a.md"] ["b.md"] ["b.md"]
    "c.md" "b.md" .fileAccessError demoCnt 0
    (by
      intro p hp
      simp at hp
      subst hp
      rfl)
    rfl
    (by
      have : (mainRun demoResolver demoFS ["b.md"]).1 = [("b.md", 0)] := rfl
      rw [this]
      simp)
